import Mathlib

/-
Shallow embedding of the Yuneec camera controller
(src/custom/src/FirmwarePlugin/YuneecCameraControl.cc) together with proofs
about its value reconciliation, gimbal calibration state machine, heartbeat
flight-mode monitor, capture-time resynchronization, spot-area codec,
capability tracking, control-button dispatch and thermal palette lookup.

Machine integers are modelled as Nat/Int with explicit `% 2^w` where overflow
matters; the double/float arithmetic of the reconciler and the spot-area codec
is modelled exactly over ℚ respectively by Nat division (truncation of a
non-negative quotient is floor, which is Nat division).
-/

/-! ## Value Reconciler (`_validateShutterSpeed`, `_validateISO`)

The C++ code builds a `QMap<diff, value>` keyed by the absolute difference to
the incoming value and returns `values.first()`, the entry with the smallest
key.  `QMap::operator[]` on an existing key replaces the stored value, so for
two candidates at the same difference the one processed later wins.  We embed
the map as a list of pairs kept strictly sorted by key, with insertion
replacing the entry on an equal key, exactly mirroring those semantics. -/

/-- One `values[diff] = v` step of the C++ loop: insert into a key-sorted
association list, replacing the stored value when the key is already
present (QMap semantics). -/
def qmapInsert {α β : Type} [LinearOrder α] (k : α) (x : β) :
    List (α × β) → List (α × β)
  | [] => [(k, x)]
  | p :: rest =>
    if k < p.1 then (k, x) :: p :: rest
    else if k = p.1 then (k, x) :: rest
    else p :: qmapInsert k x rest

/-- The whole loop followed by `values.first()`: fold every candidate into the
map keyed by its difference `d v` and read the value at the smallest key
(`none` when the candidate list is empty, where `QMap::first()` would be
undefined). -/
def qmapFirst {α β : Type} [LinearOrder α] (d : β → α) (vs : List β) :
    Option β :=
  (vs.foldl (fun m v => qmapInsert (d v) v m) []).head?.map Prod.snd

/-- `YuneecCameraControl::_validateShutterSpeed`: snap `newValue` to the
nearest entry of the enumerated allowed values by absolute difference
(`QMap<double, double>` keyed by `fabs(newValue - v)`, then `first()`).
Doubles are modelled as rationals. -/
def validateShutterSpeed (newValue : ℚ) (enumValues : List ℚ) : Option ℚ :=
  qmapFirst (fun v => |newValue - v|) enumValues

/-- `YuneecCameraControl::_validateISO`: snap `newValue` to the nearest entry
of the enumerated allowed values by `abs(newValue.toInt() - v.toInt())`
(`QMap<uint32_t, uint32_t>`, then `first()`). -/
def validateISO (newValue : ℤ) (enumValues : List ℤ) : Option ℤ :=
  qmapFirst (fun v => (newValue - v).natAbs) enumValues

/-- One step of a plain left fold computing the nearest candidate where a tie
(`d v ≤ d best`) is won by the newer candidate. -/
def lastNearestStep {α β : Type} [LinearOrder α] (d : β → α)
    (b : Option β) (v : β) : Option β :=
  match b with
  | none => some v
  | some b0 => if d v ≤ d b0 then some v else some b0

/-- Nearest candidate by difference `d`, ties going to the candidate
encountered last in list order. -/
def lastNearest {α β : Type} [LinearOrder α] (d : β → α) (vs : List β) :
    Option β :=
  vs.foldl (lastNearestStep d) none

/-- Modelled from the words of the spec (the claimed tie-break): nearest
candidate by difference `d`, ties going to the candidate encountered first,
i.e. the stable minimum of the list under the difference. -/
def specFirstNearest {α β : Type} [LinearOrder α] (d : β → α)
    (vs : List β) : Option β :=
  vs.foldl
    (fun b v =>
      match b with
      | none => some v
      | some b0 => if d v < d b0 then some v else some b0) none

lemma qmapInsert_head {α β : Type} [LinearOrder α] (k : α) (x : β)
    (acc : List (α × β)) :
    (qmapInsert k x acc).head? =
      some (acc.head?.elim (k, x) (fun p => if k ≤ p.1 then (k, x) else p)) := by
  cases acc with
  | nil => rfl
  | cons p rest =>
    by_cases h1 : k < p.1
    · simp [qmapInsert, h1, le_of_lt h1]
    · by_cases h2 : k = p.1
      · simp [qmapInsert, h1, h2]
      · have h3 : ¬ k ≤ p.1 := by
          rcases lt_trichotomy k p.1 with h | h | h
          · exact absurd h h1
          · exact absurd h h2
          · exact not_le.mpr h
        simp [qmapInsert, h1, h2, h3]

lemma qmapFirst_eq_lastNearest {α β : Type} [LinearOrder α] (d : β → α)
    (vs : List β) : qmapFirst d vs = lastNearest d vs := by
  have go : ∀ (l : List β) (acc : List (α × β)) (b : Option β),
      acc.head? = Option.map (fun y => (d y, y)) b →
      (l.foldl (fun m v => qmapInsert (d v) v m) acc).head? =
        Option.map (fun y => (d y, y)) (l.foldl (lastNearestStep d) b) := by
    intro l
    induction l with
    | nil => intro acc b h; simpa using h
    | cons v rest ih =>
      intro acc b h
      simp only [List.foldl_cons]
      apply ih
      rw [qmapInsert_head, h]
      cases b with
      | none => simp [lastNearestStep]
      | some b1 =>
        by_cases hle : d v ≤ d b1
        · simp [lastNearestStep, hle]
        · simp [lastNearestStep, hle]
  have h := go vs [] none (by simp)
  unfold qmapFirst lastNearest
  rw [h]
  cases vs.foldl (lastNearestStep d) none <;> simp

lemma lastNearest_go {α β : Type} [LinearOrder α] (d : β → α) :
    ∀ (vs : List β) (b0 : β),
      ∃ r, vs.foldl (lastNearestStep d) (some b0) = some r ∧
        (r = b0 ∨ r ∈ vs) ∧ d r ≤ d b0 ∧ ∀ v ∈ vs, d r ≤ d v := by
  intro vs
  induction vs with
  | nil =>
    intro b0
    exact ⟨b0, rfl, Or.inl rfl, le_refl _, by simp⟩
  | cons v rest ih =>
    intro b0
    simp only [List.foldl_cons]
    by_cases h : d v ≤ d b0
    · have hstep : lastNearestStep d (some b0) v = some v := by
        simp [lastNearestStep, h]
      rw [hstep]
      obtain ⟨r, hr, hmem, hle, hall⟩ := ih v
      refine ⟨r, hr, ?_, le_trans hle h, ?_⟩
      · rcases hmem with h' | h'
        · exact Or.inr (by simp [h'])
        · exact Or.inr (by simp [h'])
      · intro w hw
        rcases List.mem_cons.mp hw with h' | h'
        · subst h'; exact hle
        · exact hall w h'
    · have hstep : lastNearestStep d (some b0) v = some b0 := by
        simp [lastNearestStep, h]
      rw [hstep]
      obtain ⟨r, hr, hmem, hle, hall⟩ := ih b0
      refine ⟨r, hr, ?_, hle, ?_⟩
      · rcases hmem with h' | h'
        · exact Or.inl h'
        · exact Or.inr (by simp [h'])
      · intro w hw
        rcases List.mem_cons.mp hw with h' | h'
        · subst h'
          exact le_trans hle (le_of_not_le h)
        · exact hall w h'

lemma lastNearest_spec {α β : Type} [LinearOrder α] (d : β → α)
    (vs : List β) (h : vs ≠ []) :
    ∃ r, lastNearest d vs = some r ∧ r ∈ vs ∧ ∀ v ∈ vs, d r ≤ d v := by
  cases vs with
  | nil => exact absurd rfl h
  | cons v rest =>
    unfold lastNearest
    simp only [List.foldl_cons]
    have hstep : lastNearestStep d none v = some v := rfl
    rw [hstep]
    obtain ⟨r, hr, hmem, hle, hall⟩ := lastNearest_go d rest v
    refine ⟨r, hr, ?_, ?_⟩
    · rcases hmem with h' | h'
      · simp [h']
      · simp [h']
    · intro w hw
      rcases List.mem_cons.mp hw with h' | h'
      · subst h'; exact hle
      · exact hall w h'

/-- C1: for every enumerated allowed set and incoming measured value, the
reconciler (`_validateShutterSpeed` for shutter speed over doubles,
`_validateISO` for ISO over integers) returns an element of the allowed set
minimizing the absolute difference to the measured value; in particular, when
the measured value is itself in the allowed set, the returned value equals the
measured value. -/
theorem validate_nearest (m : ℚ) (vsQ : List ℚ) (mi : ℤ) (vsI : List ℤ)
    (hQ : vsQ ≠ []) (hI : vsI ≠ []) :
    ((∃ r, validateShutterSpeed m vsQ = some r ∧ r ∈ vsQ ∧
        ∀ v ∈ vsQ, |m - r| ≤ |m - v|) ∧
      (m ∈ vsQ → validateShutterSpeed m vsQ = some m)) ∧
    ((∃ r, validateISO mi vsI = some r ∧ r ∈ vsI ∧
        ∀ v ∈ vsI, (mi - r).natAbs ≤ (mi - v).natAbs) ∧
      (mi ∈ vsI → validateISO mi vsI = some mi)) := by
  have hQeq : validateShutterSpeed m vsQ =
      lastNearest (fun v => |m - v|) vsQ :=
    qmapFirst_eq_lastNearest _ _
  have hIeq : validateISO mi vsI =
      lastNearest (fun v => (mi - v).natAbs) vsI :=
    qmapFirst_eq_lastNearest _ _
  obtain ⟨rq, hrq, hrqmem, hrqmin⟩ :=
    lastNearest_spec (fun v => |m - v|) vsQ hQ
  obtain ⟨ri, hri, hrimem, hrimin⟩ :=
    lastNearest_spec (fun v => (mi - v).natAbs) vsI hI
  constructor
  · constructor
    · exact ⟨rq, by rw [hQeq]; exact hrq, hrqmem, hrqmin⟩
    · intro hm
      have h0 : |m - rq| ≤ |m - m| := hrqmin m hm
      have h0' : |m - rq| = 0 := le_antisymm (by simpa using h0) (abs_nonneg _)
      have : m = rq := by
        have := abs_eq_zero.mp h0'
        linarith [sub_eq_zero.mp this]
      rw [hQeq, hrq, ← this]
  · constructor
    · exact ⟨ri, by rw [hIeq]; exact hri, hrimem, hrimin⟩
    · intro hm
      have h0 : (mi - ri).natAbs ≤ (mi - mi).natAbs := hrimin mi hm
      have h0' : (mi - ri).natAbs = 0 := by simpa using h0
      have : mi = ri := by
        have := Int.natAbs_eq_zero.mp h0'
        linarith [sub_eq_zero.mp this]
      rw [hIeq, hri, ← this]

/-- Witness for C1 at a concrete input: allowed shutter speeds `[4, 8]` with
measured value `4`, allowed ISO values `[100, 200]` with measured value
`100`. -/
theorem validate_nearest_witness :
    validateShutterSpeed 4 [(4 : ℚ), 8] = some 4 ∧
    validateISO 100 [(100 : ℤ), 200] = some 100 :=
  ⟨(validate_nearest 4 [4, 8] 100 [100, 200] (by simp)
      (by simp)).1.2 (by simp),
   (validate_nearest 4 [4, 8] 100 [100, 200] (by simp)
      (by simp)).2.2 (by simp)⟩

/-- C2 counterexample: with allowed values `[1, 3]` and measured value `2`
both candidates are at difference `1`; the code returns `3` (the candidate
processed last overwrites the map entry at the tied key), while the claimed
tie-break (first encountered in an ascending-difference scan, i.e. the stable
minimum) would return `1`. -/
theorem validate_tie_counterexample :
    validateShutterSpeed 2 [(1 : ℚ), 3] = some 3 ∧
    specFirstNearest (fun v => |(2 : ℚ) - v|) [1, 3] = some 1 ∧
    validateShutterSpeed 2 [(1 : ℚ), 3] ≠
      specFirstNearest (fun v => |(2 : ℚ) - v|) [1, 3] := by
  have h1 : validateShutterSpeed 2 [(1 : ℚ), 3] = some 3 := by
    norm_num [validateShutterSpeed, qmapFirst, qmapInsert]
  have h2 : specFirstNearest (fun v => |(2 : ℚ) - v|) [1, 3] = some 1 := by
    norm_num [specFirstNearest]
  refine ⟨h1, h2, ?_⟩
  rw [h1, h2]
  simp

/-- C2 amended: when several allowed values are equally close to the measured
value, the reconciler returns the candidate encountered last in enumeration
order (the `QMap` entry at the tied difference key is overwritten by each
later candidate); formally, both reconcilers agree with the fold that keeps
the newer candidate whenever its difference is less than or equal to the best
so far. -/
theorem validate_tie_last (m : ℚ) (vsQ : List ℚ) (mi : ℤ) (vsI : List ℤ) :
    validateShutterSpeed m vsQ = lastNearest (fun v => |m - v|) vsQ ∧
    validateISO mi vsI = lastNearest (fun v => (mi - v).natAbs) vsI :=
  ⟨qmapFirst_eq_lastNearest _ _, qmapFirst_eq_lastNearest _ _⟩

/-! ## Gimbal Calibration State Machine (`_handleGimbalResult`, `_gimbalCalTimeout`)

State mapping used by the spec: Inactive when `_gimbalCalOn = false` before any
progress, InProgress/Settling while `_gimbalCalOn = true` (Settling once the
5000ms stall timer was started at progress 99), Complete when the calibration
flag has been cleared with progress 100. -/

/-- The calibration-relevant fields of the controller: `_gimbalCalOn`,
`_gimbalProgress` and the single-shot `_gimbalTimer` (`some ms` while armed
with interval `ms`, `none` while stopped). -/
structure GimbalCal where
  gimbalCalOn : Bool
  gimbalProgress : Nat
  gimbalTimer : Option Nat
deriving DecidableEq, Repr

/-- `YuneecCameraControl::_handleGimbalResult`: process one gimbal
command-acknowledgment carrying `result` (unused by the code apart from
logging) and an 8-bit `progress`. -/
def handleGimbalResult (result progress : Nat) (s : GimbalCal) : GimbalCal :=
  let s1 :=
    if s.gimbalCalOn then
      if progress = 255 then
        { s with gimbalTimer := none, gimbalProgress := 100,
                 gimbalCalOn := false }
      else s
    else
      if 0 < progress ∧ progress < 255 then { s with gimbalCalOn := true }
      else s
  if progress < 255 then
    if progress = 99 then
      { s1 with gimbalProgress := progress, gimbalTimer := some 5000 }
    else { s1 with gimbalProgress := progress }
  else s1

/-- `YuneecCameraControl::_gimbalCalTimeout`: the single-shot stall timer has
fired (so it is disarmed); if progress is still 99 the code force-completes
the calibration. -/
def gimbalCalTimeout (s : GimbalCal) : GimbalCal :=
  if s.gimbalProgress = 99 then
    { s with gimbalProgress := 100, gimbalCalOn := false, gimbalTimer := none }
  else { s with gimbalTimer := none }

/-- The initial (Inactive) calibration state after construction:
`_gimbalCalOn = false`, `_gimbalProgress = 0`, stall timer stopped. -/
def gimbalCalInit : GimbalCal := ⟨false, 0, none⟩

/-- C3: starting from Inactive, processing gimbal command-acknowledgments
with progress 10, 50, 99 in that order arms the 5000ms stall timer, and the
timer then firing with no further acknowledgment leaves the session Complete:
progress 100 with the calibration-active flag cleared. -/
theorem gimbalCal_sequence_complete :
    (handleGimbalResult 0 99 (handleGimbalResult 0 50
        (handleGimbalResult 0 10 gimbalCalInit))).gimbalTimer = some 5000 ∧
    (gimbalCalTimeout (handleGimbalResult 0 99 (handleGimbalResult 0 50
        (handleGimbalResult 0 10 gimbalCalInit)))).gimbalProgress = 100 ∧
    (gimbalCalTimeout (handleGimbalResult 0 99 (handleGimbalResult 0 50
        (handleGimbalResult 0 10 gimbalCalInit)))).gimbalCalOn = false := by
  decide

/-- C9 counterexample: from Inactive, the acknowledgment sequence 50, 200, 10
keeps the calibration active (InProgress) throughout, yet after the second
acknowledgment the stored progress is 200, outside the claimed 0..100 range,
and the third acknowledgment lowers it from 200 to 10, violating the claimed
monotonicity; the code stores each raw progress below 255 unclamped. -/
theorem gimbalProgress_counterexample :
    (handleGimbalResult 0 50 gimbalCalInit).gimbalCalOn = true ∧
    (handleGimbalResult 0 200 (handleGimbalResult 0 50
        gimbalCalInit)).gimbalCalOn = true ∧
    (handleGimbalResult 0 200 (handleGimbalResult 0 50
        gimbalCalInit)).gimbalProgress = 200 ∧
    ¬ (handleGimbalResult 0 200 (handleGimbalResult 0 50
        gimbalCalInit)).gimbalProgress ≤ 100 ∧
    (handleGimbalResult 0 10 (handleGimbalResult 0 200 (handleGimbalResult 0 50
        gimbalCalInit))).gimbalCalOn = true ∧
    (handleGimbalResult 0 10 (handleGimbalResult 0 200 (handleGimbalResult 0 50
        gimbalCalInit))).gimbalProgress <
      (handleGimbalResult 0 200 (handleGimbalResult 0 50
        gimbalCalInit)).gimbalProgress := by
  decide

/-- C9 amended: across every processed gimbal acknowledgment whose progress
value is below 255, the stored progress equals exactly that raw value — hence
it always lies in 0..254, but it is neither clamped to 100 nor monotone unless
the acknowledgment sequence itself is. -/
theorem gimbalProgress_tracks_ack (s : GimbalCal) (result progress : Nat)
    (h : progress < 255) :
    (handleGimbalResult result progress s).gimbalProgress = progress ∧
    (handleGimbalResult result progress s).gimbalProgress ≤ 254 := by
  have hp : (handleGimbalResult result progress s).gimbalProgress = progress := by
    unfold handleGimbalResult
    by_cases h99 : progress = 99
    · subst h99; simp
    · simp [h, h99]
  exact ⟨hp, by omega⟩

/-- Witness for C9 amended at progress 120, which is stored as-is. -/
theorem gimbalProgress_tracks_ack_witness :
    (handleGimbalResult 0 120 gimbalCalInit).gimbalProgress = 120 ∧
    (handleGimbalResult 0 120 gimbalCalInit).gimbalProgress ≤ 254 :=
  gimbalProgress_tracks_ack gimbalCalInit 0 120 (by decide)

/-! ## Flight-Mode Monitor (`_handleHeartBeat`)

The handler reacts only to heartbeats whose source component equals the
vehicle default component id; it decodes the custom-mode sub-mode field and
edge-triggers on entry/exit of the autonomous-mission sub-mode, forcing a full
parameter resynchronization (`_requestAllParameters`) on exit. -/

/-- Modelled from the spec: the autonomous-mission custom sub-mode constant
(`PX4_CUSTOM_SUB_MODE_AUTO_MISSION` from `px4_custom_mode.h`, which is outside
this file); the proofs depend only on equality with it, not on its value. -/
def PX4_CUSTOM_SUB_MODE_AUTO_MISSION : Nat := 4

/-- `YuneecCameraControl::_handleHeartBeat`: given the vehicle default
component id, the heartbeat source component and the decoded sub-mode,
return the new `_inMissionMode` flag and whether `_requestAllParameters`
was called. -/
def handleHeartBeat (defaultComponentId compid subMode : Nat)
    (inMissionMode : Bool) : Bool × Bool :=
  if compid = defaultComponentId then
    if subMode ≠ PX4_CUSTOM_SUB_MODE_AUTO_MISSION ∧ inMissionMode = true then
      (false, true)
    else if subMode = PX4_CUSTOM_SUB_MODE_AUTO_MISSION ∧
        inMissionMode = false then
      (true, false)
    else (inMissionMode, false)
  else (inMissionMode, false)

/-- Fold `_handleHeartBeat` over a list of heartbeats `(compid, subMode)` and
count how many of them triggered a full parameter resynchronization. -/
def heartBeatResyncCount (defaultComponentId : Nat) (inMissionMode : Bool) :
    List (Nat × Nat) → Nat
  | [] => 0
  | (compid, subMode) :: rest =>
    let r := handleHeartBeat defaultComponentId compid subMode inMissionMode
    (if r.2 then 1 else 0) + heartBeatResyncCount defaultComponentId r.1 rest

/-- Number of adjacent mission-to-non-mission sub-mode transitions inside a
heartbeat sub-mode sequence. -/
def missionExitEdges : List Nat → Nat
  | a :: b :: rest =>
    (if a = PX4_CUSTOM_SUB_MODE_AUTO_MISSION ∧
        b ≠ PX4_CUSTOM_SUB_MODE_AUTO_MISSION then 1 else 0) +
      missionExitEdges (b :: rest)
  | _ => 0

lemma handleHeartBeat_same_comp (dc subMode : Nat) (b : Bool) :
    handleHeartBeat dc dc subMode b =
      (decide (subMode = PX4_CUSTOM_SUB_MODE_AUTO_MISSION),
       b && decide (subMode ≠ PX4_CUSTOM_SUB_MODE_AUTO_MISSION)) := by
  by_cases hm : subMode = PX4_CUSTOM_SUB_MODE_AUTO_MISSION <;>
    cases b <;> simp [handleHeartBeat, hm]

lemma heartBeatResyncCount_shift (dc : Nat) :
    ∀ (subs : List Nat) (a : Nat),
      heartBeatResyncCount dc
          (decide (a = PX4_CUSTOM_SUB_MODE_AUTO_MISSION))
          (subs.map (fun s => (dc, s))) =
        missionExitEdges (a :: subs) := by
  intro subs
  induction subs with
  | nil => intro a; rfl
  | cons s rest ih =>
    intro a
    simp only [List.map_cons, heartBeatResyncCount, handleHeartBeat_same_comp]
    rw [ih s]
    by_cases ha : a = PX4_CUSTOM_SUB_MODE_AUTO_MISSION <;>
      by_cases hs : s = PX4_CUSTOM_SUB_MODE_AUTO_MISSION <;>
        simp [missionExitEdges, ha, hs]

lemma heartBeatResyncCount_eq_exitEdges (dc : Nat) (subs : List Nat) :
    heartBeatResyncCount dc false (subs.map (fun s => (dc, s))) =
      missionExitEdges subs := by
  cases subs with
  | nil => rfl
  | cons s rest =>
    simp only [List.map_cons, heartBeatResyncCount, handleHeartBeat_same_comp]
    have h := heartBeatResyncCount_shift dc rest s
    simp only [Bool.false_and, if_neg Bool.false_ne_true] at *
    simpa using h

/-- C4: over any heartbeat sequence from the vehicle default component whose
sub-mode makes exactly one transition from the autonomous-mission value to a
non-mission value, the monitor (started outside mission mode) triggers exactly
one full parameter resynchronization — in particular no further resync on the
heartbeats repeating the non-mission sub-mode after the transition. -/
theorem heartBeat_resync_once (dc : Nat) (subs : List Nat)
    (h : missionExitEdges subs = 1) :
    heartBeatResyncCount dc false (subs.map (fun s => (dc, s))) = 1 := by
  rw [heartBeatResyncCount_eq_exitEdges]
  exact h

/-- Witness for C4: mission heartbeat (sub-mode 4) followed by two heartbeats
with non-mission sub-mode 1 — a single transition, a single resync. -/
theorem heartBeat_resync_once_witness :
    missionExitEdges [4, 1, 1] = 1 ∧
    heartBeatResyncCount 1 false ([4, 1, 1].map (fun s => (1, s))) = 1 :=
  ⟨by decide, heartBeat_resync_once 1 [4, 1, 1] (by decide)⟩

/-! ## Capture State Tracker timing (`handleCaptureStatus`, `_recTimerHandler`)

`_recTime` is a `QTime` started when the video session begins; its `elapsed()`
at wall-clock instant `now` is `now - recStart` where `recStart` is the stored
start instant, and `addMSecs(d)` shifts the stored instant forward by `d`.
The 333ms repeating `_recTimer` drives `_recTimerHandler`. -/

/-- Capture-timing fields of the controller: current video status, the
displayed `_recordTime` in ms, the `_recTime` start instant, and whether the
periodic `_recTimer` tick is running. -/
structure RecState where
  videoStatus : Nat
  recordTime : Int
  recStart : Int
  recTimerOn : Bool
deriving DecidableEq, Repr

/-- `VIDEO_CAPTURE_STATUS_RUNNING` tag of the camera-control base interface
(the handler only compares the current status against it). -/
def VIDEO_CAPTURE_STATUS_RUNNING : Nat := 1

/-- `YuneecCameraControl::_recTimerHandler` at wall-clock instant `now`:
`_recordTime = _recTime.elapsed()`. -/
def recTimerHandler (now : Int) (s : RecState) : RecState :=
  { s with recordTime := now - s.recStart }

/-- `YuneecCameraControl::handleCaptureStatus` at wall-clock instant `now`:
while the video status is Running, adopt the authoritative
`recording_time_ms` and offset `_recTime` by
`_recTime.elapsed() - recording_time_ms` so that the local clock agrees with
the device measurement; otherwise leave the state unchanged. -/
def handleCaptureStatus (now recordingTimeMs : Int) (s : RecState) :
    RecState :=
  if s.videoStatus = VIDEO_CAPTURE_STATUS_RUNNING then
    { s with recordTime := recordingTimeMs,
             recStart := s.recStart + ((now - s.recStart) - recordingTimeMs) }
  else s

/-- C5: while a video session is Running, an authoritative capture-status
message carrying `recording_time_ms = 900` sets the displayed elapsed time to
900ms, leaves the periodic tick and the video status untouched, and every
subsequent tick fired `d` ms later shows `900 + d` — the local clock is offset
to the authoritative baseline without stopping or restarting the tick. -/
theorem captureStatus_resync (s : RecState) (now : Int)
    (h : s.videoStatus = VIDEO_CAPTURE_STATUS_RUNNING) :
    (handleCaptureStatus now 900 s).recordTime = 900 ∧
    (handleCaptureStatus now 900 s).recTimerOn = s.recTimerOn ∧
    (handleCaptureStatus now 900 s).videoStatus = s.videoStatus ∧
    ∀ d : Int,
      (recTimerHandler (now + d)
        (handleCaptureStatus now 900 s)).recordTime = 900 + d := by
  refine ⟨by simp [handleCaptureStatus, h], by simp [handleCaptureStatus, h],
    by simp [handleCaptureStatus, h], ?_⟩
  intro d
  simp only [handleCaptureStatus, if_pos h, recTimerHandler]
  ring

/-- Witness for C5: a session started at instant 0 which has ticked up to
1000ms receives the authoritative 900ms at instant 1000; the next tick 333ms
later shows 1233ms. -/
theorem captureStatus_resync_witness :
    (handleCaptureStatus 1000 900
        ⟨VIDEO_CAPTURE_STATUS_RUNNING, 1000, 0, true⟩).recordTime = 900 ∧
    (handleCaptureStatus 1000 900
        ⟨VIDEO_CAPTURE_STATUS_RUNNING, 1000, 0, true⟩).recTimerOn = true ∧
    (recTimerHandler (1000 + 333) (handleCaptureStatus 1000 900
        ⟨VIDEO_CAPTURE_STATUS_RUNNING, 1000, 0, true⟩)).recordTime =
      900 + 333 := by
  have h := captureStatus_resync
    ⟨VIDEO_CAPTURE_STATUS_RUNNING, 1000, 0, true⟩ 1000 rfl
  exact ⟨h.1, h.2.1, h.2.2.2 333⟩

/-! ## Spot-Area Codec (`setSpotArea`, `spotArea`)

Encode: clamp negative pixel coordinates to 0, scale to a 0..100 percentage of
the frame by float division truncated through a `uint8_t` cast (truncation of
a non-negative value is floor, i.e. Nat division; an out-of-range float to
`uint8_t` cast is modelled as wraparound `% 256`), clamp to at most 100, pack
as `(x << 8) | y` (with `y < 256` the bitwise-or is addition).  Decode: read
back the two bytes and scale by `frame / 100` with an `int` truncating cast.
Both directions are guarded by `!_isCGOET && _paramComplete`. -/

/-- `YuneecCameraControl::setSpotArea`: returns the packed 16-bit value
written to the `CAM_SPOTAREA` parameter, or `none` when the guard fails and
nothing is written. -/
def setSpotArea (isCGOET paramComplete : Bool) (vw vh : Nat) (px py : Int) :
    Option Nat :=
  if isCGOET = false ∧ paramComplete = true then
    let fx : Nat := (if px < 0 then 0 else px).toNat
    let fy : Nat := (if py < 0 then 0 else py).toNat
    let x := min (fx * 100 / vw % 256) 100
    let y := min (fy * 100 / vh % 256) 100
    some (x * 256 + y)
  else none

/-- `YuneecCameraControl::spotArea`: decode the packed `CAM_SPOTAREA` value
back to a pixel point, or `(0, 0)` when the guard fails. -/
def spotArea (isCGOET paramComplete : Bool) (vw vh : Nat) (packed : Nat) :
    Nat × Nat :=
  if isCGOET = false ∧ paramComplete = true then
    (packed / 256 % 256 * vw / 100, packed % 256 * vh / 100)
  else (0, 0)

lemma spotByte_lt (vw x : Nat) (hx : x < vw) : x * 100 / vw < 100 :=
  Nat.div_lt_of_lt_mul (by omega)

lemma spotPack_unpack (a b : Nat) (ha : a < 100) (hb : b < 100) :
    (a * 256 + b) / 256 % 256 = a ∧ (a * 256 + b) % 256 = b := by
  omega

lemma spotByte_decode_bound (vw x : Nat) (hw : 0 < vw) :
    x * 100 / vw * vw / 100 ≤ x ∧
    100 * (x - x * 100 / vw * vw / 100) < vw + 100 := by
  have e1 := Nat.div_add_mod (x * 100) vw
  have m1 : x * 100 % vw < vw := Nat.mod_lt _ hw
  generalize hq : x * 100 / vw = xb at *
  rw [Nat.mul_comm vw xb] at e1
  generalize hr : xb * vw = t at *
  omega

/-- C6 counterexample: with frame 99×99 and point (98, 98), encoding then
decoding yields (97, 97); the decoded x differs from the original by one
pixel, which exceeds the claimed tolerance of `W/100 = 99/100` (and likewise
for y). -/
theorem spotArea_roundtrip_counterexample :
    setSpotArea false true 99 99 98 98 = some 25186 ∧
    spotArea false true 99 99 25186 = (97, 97) ∧
    ¬ ((98 - 97 : ℚ) ≤ 99 / 100) := by
  refine ⟨by decide, by decide, by norm_num⟩

/-- C6 amended: for every frame size with `W, H > 0` and every point with
`x ∈ [0, W)`, `y ∈ [0, H)` (parameters loaded, non-thermal variant), encoding
writes a packed value whose decoding never overshoots the original point and
undershoots it by strictly less than `W/100 + 1` respectively `H/100 + 1`
pixels — one percent-quantization step plus one pixel of decode
truncation (stated over integers as `100·(x - x') < W + 100`). -/
theorem spotArea_roundtrip_bound (vw vh x y : Nat) (hw : 0 < vw)
    (hh : 0 < vh) (hx : x < vw) (hy : y < vh) :
    ∃ packed, setSpotArea false true vw vh (x : Int) (y : Int) = some packed ∧
      (spotArea false true vw vh packed).1 ≤ x ∧
      (spotArea false true vw vh packed).2 ≤ y ∧
      100 * (x - (spotArea false true vw vh packed).1) < vw + 100 ∧
      100 * (y - (spotArea false true vw vh packed).2) < vh + 100 := by
  have hxb := spotByte_lt vw x hx
  have hyb := spotByte_lt vh y hy
  have hfx : ((if (x : Int) < 0 then 0 else (x : Int)).toNat) = x := by
    rw [if_neg (by omega)]
    exact Int.toNat_natCast x
  have hfy : ((if (y : Int) < 0 then 0 else (y : Int)).toNat) = y := by
    rw [if_neg (by omega)]
    exact Int.toNat_natCast y
  have henc : setSpotArea false true vw vh (x : Int) (y : Int) =
      some (x * 100 / vw * 256 + y * 100 / vh) := by
    unfold setSpotArea
    rw [if_pos ⟨rfl, rfl⟩]
    simp only [hfx, hfy]
    rw [Nat.mod_eq_of_lt (by omega), Nat.mod_eq_of_lt (by omega),
      Nat.min_eq_left (by omega), Nat.min_eq_left (by omega)]
  refine ⟨x * 100 / vw * 256 + y * 100 / vh, henc, ?_⟩
  have hdec : spotArea false true vw vh (x * 100 / vw * 256 + y * 100 / vh) =
      (x * 100 / vw * vw / 100, y * 100 / vh * vh / 100) := by
    unfold spotArea
    rw [if_pos ⟨rfl, rfl⟩]
    obtain ⟨h1, h2⟩ := spotPack_unpack (x * 100 / vw) (y * 100 / vh) hxb hyb
    rw [h1, h2]
  rw [hdec]
  obtain ⟨hle1, hlt1⟩ := spotByte_decode_bound vw x hw
  obtain ⟨hle2, hlt2⟩ := spotByte_decode_bound vh y hh
  exact ⟨hle1, hle2, hlt1, hlt2⟩

/-- Witness for C6 amended: frame 1920×1080, point (500, 500); the decoded
point (499, 496) undershoots by less than one quantization step plus one
pixel. -/
theorem spotArea_roundtrip_bound_witness :
    ∃ packed, setSpotArea false true 1920 1080 (500 : Int) (500 : Int) =
        some packed ∧
      (spotArea false true 1920 1080 packed).1 ≤ 500 ∧
      (spotArea false true 1920 1080 packed).2 ≤ 500 ∧
      100 * (500 - (spotArea false true 1920 1080 packed).1) < 1920 + 100 ∧
      100 * (500 - (spotArea false true 1920 1080 packed).2) < 1080 + 100 :=
  spotArea_roundtrip_bound 1920 1080 500 500 (by decide) (by decide)
    (by decide) (by decide)

/-! ## Capability Tracker (`_handleHardwareVersion`) -/

/-- The MAVLink gimbal component id (`MAV_COMP_ID_GIMBAL`). -/
def MAV_COMP_ID_GIMBAL : Nat := 154

/-- The version string formatted by `_handleHardwareVersion`: three 8-bit
fields of the 32-bit `flight_sw_version` word, using the byte-shifted masks
of the code (shift by 24, 16 and 8, each masked with `0xFF`, i.e. `% 256`). -/
def gimbalVersionString (flightSwVersion : Nat) : String :=
  toString ((flightSwVersion >>> (8 * 3)) % 256) ++ "." ++
    toString ((flightSwVersion >>> (8 * 2)) % 256) ++ "." ++
    toString ((flightSwVersion >>> (8 * 1)) % 256)

/-- `YuneecCameraControl::_handleHardwareVersion`: given the source component
of the capability-response message, its `flight_sw_version` word and the
currently stored `_gimbalVersion`, return the new stored version together
with whether `gimbalVersionChanged` was emitted. -/
def handleHardwareVersion (compid flightSwVersion : Nat)
    (gimbalVersion : String) : String × Bool :=
  if compid = MAV_COMP_ID_GIMBAL then
    (gimbalVersionString flightSwVersion, true)
  else (gimbalVersion, false)

/-- C7 counterexample: processing the same capability-response from the
gimbal component a second time — after the first response has already been
observed and stored — emits the change notification again, contradicting the
claim that no additional notification is emitted after the first. -/
theorem hardwareVersion_counterexample :
    (handleHardwareVersion MAV_COMP_ID_GIMBAL 16909060 "").2 = true ∧
    (handleHardwareVersion MAV_COMP_ID_GIMBAL 16909060
      (handleHardwareVersion MAV_COMP_ID_GIMBAL 16909060 "").1).2 = true :=
  ⟨rfl, rfl⟩

/-- C7 amended: the tracker emits the gimbal-version change notification on
every capability-response message from the gimbal component, first or not,
recomputing and storing the formatted version each time; messages from any
other component emit nothing and leave the stored version unchanged. -/
theorem hardwareVersion_always_emits (compid v : Nat) (prev : String) :
    (compid = MAV_COMP_ID_GIMBAL →
      (handleHardwareVersion compid v prev).2 = true ∧
      (handleHardwareVersion compid v prev).1 = gimbalVersionString v) ∧
    (compid ≠ MAV_COMP_ID_GIMBAL →
      (handleHardwareVersion compid v prev).2 = false ∧
      (handleHardwareVersion compid v prev).1 = prev) := by
  constructor
  · intro h
    simp [handleHardwareVersion, h]
  · intro h
    simp [handleHardwareVersion, h]

/-- Witness for C7 amended: a gimbal response emits, a response from
component 1 does not. -/
theorem hardwareVersion_always_emits_witness :
    ((handleHardwareVersion 154 16909060 "0.0.0").2 = true ∧
      (handleHardwareVersion 154 16909060 "0.0.0").1 =
        gimbalVersionString 16909060) ∧
    ((handleHardwareVersion 1 16909060 "0.0.0").2 = false ∧
      (handleHardwareVersion 1 16909060 "0.0.0").1 = "0.0.0") :=
  ⟨(hardwareVersion_always_emits 154 16909060 "0.0.0").1 rfl,
   (hardwareVersion_always_emits 1 16909060 "0.0.0").2 (by decide)⟩

/-! ## Control Dispatcher (`_switchStateChanged`)

The handler runs only on `newState == 1` (button pressed); `oldState` is
explicitly unused (`Q_UNUSED`).  The photo-status and camera-mode tags come
from the camera-control base interface; `PHOTO_CAPTURE_IDLE` and
`PHOTO_CAPTURE_STATUS_UNDEFINED` are both referenced by this file (the latter
is set by `factChanged` while a capture status refresh is pending). -/

/-- Photo-capture status tags of the camera-control base interface. -/
inductive PhotoStatus where
  | PHOTO_CAPTURE_IDLE
  | PHOTO_CAPTURE_IN_PROGRESS
  | PHOTO_CAPTURE_INTERVAL_IDLE
  | PHOTO_CAPTURE_INTERVAL_IN_PROGRESS
  | PHOTO_CAPTURE_STATUS_UNDEFINED
deriving DecidableEq, Repr

/-- Camera-mode tags of the camera-control base interface; the dispatcher
distinguishes video, photo and anything else. -/
inductive CamMode where
  | CAM_MODE_PHOTO
  | CAM_MODE_VIDEO
  | CAM_MODE_UNDEFINED
deriving DecidableEq, Repr

/-- `VIDEO_CAPTURE_STATUS_STOPPED` tag (distinct from
`VIDEO_CAPTURE_STATUS_RUNNING`); the dispatcher only compares against it. -/
def VIDEO_CAPTURE_STATUS_STOPPED : Nat := 0

/-- Modelled from the spec: the physical control-button ids
(`Yuneec::BUTTON_CAMERA_SHUTTER`, `Yuneec::BUTTON_VIDEO_SHUTTER`, defined
outside this file); only their distinctness matters, other ids fall into the
default switch case. -/
inductive ButtonId where
  | BUTTON_CAMERA_SHUTTER
  | BUTTON_VIDEO_SHUTTER
  | BUTTON_OTHER
deriving DecidableEq, Repr

/-- The externally observable action taken by `_switchStateChanged`:
`errorBeep` is the failure notification (error sound, no capture);
`delayedPhoto`/`delayedVideo` are the mode switch followed by the 2500ms
single-shot settling timer that then takes the photo / starts the video. -/
inductive SwitchAction where
  | noAction
  | errorBeep
  | photoTaken
  | delayedPhoto
  | videoToggled
  | delayedVideo
deriving DecidableEq, Repr

/-- The controller state read by `_switchStateChanged`: storage totals (kb),
photo status, camera mode, video status and the `photosInVideoMode`
capability of the device variant. -/
structure SwitchEnv where
  storageTotal : Nat
  storageFree : Nat
  photoStatus : PhotoStatus
  cameraMode : CamMode
  videoStatus : Nat
  photosInVideoMode : Bool
deriving DecidableEq, Repr

/-- `YuneecCameraControl::_switchStateChanged`. -/
def switchStateChanged (swId : ButtonId) (oldState newState : Int)
    (env : SwitchEnv) : SwitchAction :=
  if newState = 1 then
    match swId with
    | ButtonId.BUTTON_CAMERA_SHUTTER =>
      if env.storageTotal = 0 ∨ env.storageFree < 250 ∨
          env.photoStatus ≠ PhotoStatus.PHOTO_CAPTURE_IDLE then
        SwitchAction.errorBeep
      else if env.cameraMode = CamMode.CAM_MODE_VIDEO then
        if env.photosInVideoMode then
          if env.videoStatus ≠ VIDEO_CAPTURE_STATUS_STOPPED then
            SwitchAction.errorBeep
          else SwitchAction.photoTaken
        else
          if env.videoStatus ≠ VIDEO_CAPTURE_STATUS_STOPPED then
            SwitchAction.errorBeep
          else SwitchAction.delayedPhoto
      else if env.cameraMode = CamMode.CAM_MODE_PHOTO then
        SwitchAction.photoTaken
      else SwitchAction.errorBeep
    | ButtonId.BUTTON_VIDEO_SHUTTER =>
      if env.storageTotal = 0 ∨ env.storageFree < 250 ∨
          env.photoStatus ≠ PhotoStatus.PHOTO_CAPTURE_IDLE then
        SwitchAction.errorBeep
      else if env.cameraMode = CamMode.CAM_MODE_VIDEO then
        SwitchAction.videoToggled
      else SwitchAction.delayedVideo
    | ButtonId.BUTTON_OTHER => SwitchAction.noAction
  else SwitchAction.noAction

/-- C8 counterexample: on a shutter press with ample storage
(total 1000, free 1000), photo mode, and a photo status that is undefined —
so no photo capture is in progress — the code rejects with the failure
notification instead of taking the photo: its guard is `photoStatus != IDLE`,
not "a capture is in progress". -/
theorem switchState_counterexample :
    switchStateChanged ButtonId.BUTTON_CAMERA_SHUTTER 0 1
        ⟨1000, 1000, PhotoStatus.PHOTO_CAPTURE_STATUS_UNDEFINED,
          CamMode.CAM_MODE_PHOTO, 0, false⟩ = SwitchAction.errorBeep ∧
    (1000 : Nat) ≠ 0 ∧ ¬ ((1000 : Nat) < 250) ∧
    PhotoStatus.PHOTO_CAPTURE_STATUS_UNDEFINED ≠
      PhotoStatus.PHOTO_CAPTURE_IN_PROGRESS ∧
    SwitchAction.errorBeep ≠ SwitchAction.photoTaken := by
  refine ⟨rfl, by decide, by decide, by decide, by decide⟩

/-- C8 amended: on a shutter-button pressed transition the dispatcher rejects
with the failure notification (and performs no capture) whenever total
storage is zero, free storage is below 250, or the photo status is anything
other than idle; when none of these hold and the camera is in photo mode, a
photo is taken immediately; any event with a state other than pressed
triggers no action at all. -/
theorem switchState_guarded (env : SwitchEnv) (oldState newState : Int) :
    (newState = 1 →
      (env.storageTotal = 0 ∨ env.storageFree < 250 ∨
          env.photoStatus ≠ PhotoStatus.PHOTO_CAPTURE_IDLE →
        switchStateChanged ButtonId.BUTTON_CAMERA_SHUTTER oldState newState
          env = SwitchAction.errorBeep) ∧
      (env.storageTotal ≠ 0 → ¬ env.storageFree < 250 →
        env.photoStatus = PhotoStatus.PHOTO_CAPTURE_IDLE →
        env.cameraMode = CamMode.CAM_MODE_PHOTO →
        switchStateChanged ButtonId.BUTTON_CAMERA_SHUTTER oldState newState
          env = SwitchAction.photoTaken)) ∧
    (newState ≠ 1 → ∀ swId,
      switchStateChanged swId oldState newState env =
        SwitchAction.noAction) := by
  refine ⟨fun h1 => ⟨fun hrej => ?_, fun ht hf hp hm => ?_⟩,
    fun hn swId => ?_⟩
  · unfold switchStateChanged
    rw [if_pos h1]
    exact if_pos hrej
  · unfold switchStateChanged
    rw [if_pos h1]
    have hguard : ¬ (env.storageTotal = 0 ∨ env.storageFree < 250 ∨
        env.photoStatus ≠ PhotoStatus.PHOTO_CAPTURE_IDLE) := by
      simp [ht, hf, hp]
    rw [if_neg hguard]
    have hv : env.cameraMode ≠ CamMode.CAM_MODE_VIDEO := by
      rw [hm]; decide
    rw [if_neg hv, if_pos hm]
  · unfold switchStateChanged
    rw [if_neg hn]

/-- Witness for C8 amended: with ample storage, idle photo status and photo
mode, a press takes the photo; with free storage 100 a press beeps; a release
event does nothing. -/
theorem switchState_guarded_witness :
    switchStateChanged ButtonId.BUTTON_CAMERA_SHUTTER 0 1
        ⟨1000, 1000, PhotoStatus.PHOTO_CAPTURE_IDLE, CamMode.CAM_MODE_PHOTO,
          0, false⟩ = SwitchAction.photoTaken ∧
    switchStateChanged ButtonId.BUTTON_CAMERA_SHUTTER 0 1
        ⟨1000, 100, PhotoStatus.PHOTO_CAPTURE_IDLE, CamMode.CAM_MODE_PHOTO,
          0, false⟩ = SwitchAction.errorBeep ∧
    switchStateChanged ButtonId.BUTTON_CAMERA_SHUTTER 1 0
        ⟨1000, 1000, PhotoStatus.PHOTO_CAPTURE_IDLE, CamMode.CAM_MODE_PHOTO,
          0, false⟩ = SwitchAction.noAction :=
  ⟨((switchState_guarded ⟨1000, 1000, PhotoStatus.PHOTO_CAPTURE_IDLE,
        CamMode.CAM_MODE_PHOTO, 0, false⟩ 0 1).1 rfl).2
      (by decide) (by decide) rfl rfl,
   ((switchState_guarded ⟨1000, 100, PhotoStatus.PHOTO_CAPTURE_IDLE,
        CamMode.CAM_MODE_PHOTO, 0, false⟩ 0 1).1 rfl).1
      (by right; left; decide),
   (switchState_guarded ⟨1000, 1000, PhotoStatus.PHOTO_CAPTURE_IDLE,
        CamMode.CAM_MODE_PHOTO, 0, false⟩ 1 0).2 (by decide)
      ButtonId.BUTTON_CAMERA_SHUTTER⟩

/-! ## Thermal Palette Bar (`palettetBar`) -/

/-- The `kPaleteBars` palette-name table (11 entries). -/
def kPaleteBars : List String :=
  ["Fusion", "Rainbow", "Globow", "IceFire", "IronBlack", "WhiteHot",
   "BlackHot", "Rain", "Iron", "GrayRed", "GrayFusion"]

/-- `YuneecCameraControl::palettetBar`: the bar image URL; `barStr` starts at
`kPaleteBars[0]` and is replaced by `kPaleteBars[raw]` only when the device
is the thermal variant, the `CAM_IRPALETTE` parameter is present, and its
raw value is below 11. -/
def palettetBar (isCGOET factPresent : Bool) (rawValue : Nat) : String :=
  let barStr :=
    if isCGOET = true ∧ factPresent = true ∧ rawValue < 11 then
      kPaleteBars.getD rawValue "Fusion"
    else kPaleteBars.getD 0 "Fusion"
  "qrc:/typhoonh/img/flir-" ++ barStr ++ ".png"

/-- C10: the palette-bar lookup never leaves the 11-entry table: every result
is the URL of some palette entry, and whenever the raw parameter value is 11
or more, or the device is not the thermal-imaging variant, the result falls
back to the first entry ("Fusion"). -/
theorem palettetBar_safe (isCGOET factPresent : Bool) (rawValue : Nat) :
    palettetBar isCGOET factPresent rawValue ∈
      kPaleteBars.map (fun s => "qrc:/typhoonh/img/flir-" ++ s ++ ".png") ∧
    (11 ≤ rawValue ∨ isCGOET = false →
      palettetBar isCGOET factPresent rawValue =
        "qrc:/typhoonh/img/flir-Fusion.png") := by
  constructor
  · unfold palettetBar
    by_cases h : isCGOET = true ∧ factPresent = true ∧ rawValue < 11
    · rw [if_pos h]
      obtain ⟨-, -, hr⟩ := h
      interval_cases rawValue <;> decide
    · rw [if_neg h]
      decide
  · intro h
    unfold palettetBar
    have hneg : ¬ (isCGOET = true ∧ factPresent = true ∧ rawValue < 11) := by
      rcases h with h | h
      · rintro ⟨-, -, hlt⟩; omega
      · rintro ⟨hc, -⟩; rw [h] at hc; exact Bool.false_ne_true hc
    rw [if_neg hneg]
    rfl

/-- Witness for C10: raw value 11 on the thermal variant and raw value 3 on
the non-thermal variant both yield the Fusion bar. -/
theorem palettetBar_safe_witness :
    palettetBar true true 11 = "qrc:/typhoonh/img/flir-Fusion.png" ∧
    palettetBar false true 3 = "qrc:/typhoonh/img/flir-Fusion.png" :=
  ⟨(palettetBar_safe true true 11).2 (by decide),
   (palettetBar_safe false true 3).2 (by decide)⟩
